import Mathlib

/-!
Shallow embedding of the event-notification pipeline of the Pocketlaw
dashboard repository: the N8N webhook service (envelope catalog and
delivery transport), the document service, the task service, and the
auth context logout flow.  Wall-clock readings (`new Date().toISOString()`,
`Date.now()`, `new Date().getFullYear()`) are passed as explicit
parameters; `fetch` outcomes are modelled as an explicit
`DeliveryOutcome` value.
-/

/-- JSON-like values, modelling the untyped `data` payloads the source
builds as JavaScript object literals.  Object fields keep insertion
order, as JavaScript object literals do. -/
inductive Json where
  | str (s : String)
  | num (n : Nat)
  | bool (b : Bool)
  | null
  | arr (elems : List Json)
  | obj (fields : List (String × Json))

/-- Field lookup on a JSON object (first match), `none` on non-objects. -/
def Json.getField : Json → String → Option Json
  | .obj fields, k =>
    match fields.find? (fun p => p.fst = k) with
    | some p => some p.snd
    | none => none
  | _, _ => none

/-- Two-level field lookup, for nested payloads such as `data.task.completedAt`. -/
def Json.getField2 (j : Json) (k1 k2 : String) : Option Json :=
  match j.getField k1 with
  | some inner => inner.getField k2
  | none => none

/-- The top-level field names of a JSON object, in order. -/
def Json.keys : Json → List String
  | .obj fields => fields.map Prod.fst
  | _ => []

/-- Replace the value of one top-level field of a JSON object. -/
def Json.setField (j : Json) (k : String) (v : Json) : Json :=
  match j with
  | .obj fields => .obj (fields.map fun p => if p.fst = k then (p.fst, v) else p)
  | other => other

/-- Encoding of an optional string field (JavaScript `undefined` and
`null` both map to `Json.null`). -/
def optStr : Option String → Json
  | some s => .str s
  | none => .null

/-- Encoding of an optional numeric field. -/
def optNum : Option Nat → Json
  | some n => .num n
  | none => .null

/-- Denormalized snapshot of the acting user, the `user` block of every
envelope (`{id, name, email, role}`). -/
structure ActorSnapshot where
  id : String
  name : String
  email : String
  role : String
deriving DecidableEq

/-- The `N8NWebhookPayload` interface of `n8nService.ts`: one outbound
notification envelope. -/
structure Envelope where
  action : String
  timestamp : String
  user : ActorSnapshot
  data : Json

/-- The `DocumentMetadata` interface of `documentService.ts`. -/
structure DocumentMetadata where
  id : String
  name : String
  type : String
  status : String
  fileUrl : String
  fileSize : Nat
  mimeType : String
  tags : List String
  folderId : Option String
  priority : String
  dueDate : Option String
  version : Nat
  createdBy : String
  assignedTo : Option String
  createdAt : String
  updatedAt : String
deriving DecidableEq

/-- The `TaskData` interface of `taskService.ts` (status and priority are
kept as strings, as the TypeScript string-literal unions are). -/
structure TaskData where
  id : String
  title : String
  description : String
  status : String
  priority : String
  dueDate : Option String
  assignedTo : String
  assignedBy : String
  documentId : Option String
  estimatedHours : Option Nat
  actualHours : Option Nat
  tags : List String
  createdAt : String
  updatedAt : String
deriving DecidableEq

/-- The template entities consumed by the template catalog events
(fields read by `templateCreated`, `templateUsed`, `templateDeleted`). -/
structure TemplateData where
  id : String
  name : String
  category : String
  isPublic : Bool
  templateVars : Option (List String)
  usageCount : Nat
deriving DecidableEq

/-- The folder entities consumed by the folder catalog events. -/
structure FolderData where
  id : String
  name : String
  parentId : Option String
deriving DecidableEq

namespace N8NService

/-- JavaScript `a || b` on a possibly-unset string configuration value:
the fallback is used when the value is absent or the empty string. -/
def jsOr (v : Option String) (dflt : String) : String :=
  match v with
  | none => dflt
  | some s => if s = "" then dflt else s

/-- Hard-coded fallback for the test webhook URL. -/
def defaultTestUrl : String :=
  "https://mzm836987q3287.app.n8n.cloud/webhook-test/proposal-upload"

/-- Hard-coded fallback for the production webhook URL. -/
def defaultProductionUrl : String :=
  "https://mzm836987q3287.app.n8n.cloud/webhook/proposal-upload"

/-- The ambient configuration read once at service construction:
`import.meta.env.DEV`, `VITE_N8N_TEST_URL`, `VITE_N8N_PRODUCTION_URL`. -/
structure N8NConfig where
  dev : Bool
  viteTestUrl : Option String
  viteProductionUrl : Option String
deriving DecidableEq

/-- The `testUrl` field of `N8NService`. -/
def testUrl (c : N8NConfig) : String :=
  jsOr c.viteTestUrl defaultTestUrl

/-- The `productionUrl` field of `N8NService`. -/
def productionUrl (c : N8NConfig) : String :=
  jsOr c.viteProductionUrl defaultProductionUrl

/-- The `webhookUrl` getter: the development flag selects the test URL,
otherwise the production URL. -/
def webhookUrl (c : N8NConfig) : String :=
  if c.dev then testUrl c else productionUrl c

/-- The HTTP request `sendWebhook` issues via `fetch`. -/
structure HttpRequest where
  url : String
  method : String
  contentType : String
  userAgent : String
  body : Envelope

/-- The request `sendWebhook` builds for a payload under a configuration. -/
def webhookRequest (c : N8NConfig) (payload : Envelope) : HttpRequest :=
  { url := webhookUrl c
    method := "POST"
    contentType := "application/json"
    userAgent := "Pocketlaw-Dashboard/1.0.0"
    body := payload }

/-- Possible outcomes of the `fetch` call inside `sendWebhook`: a network
error (the promise rejects) or an HTTP response with a status code. -/
inductive DeliveryOutcome where
  | networkError (msg : String)
  | response (status : Nat) (statusText : String) (body : String)
deriving DecidableEq

/-- `Response.ok` of the fetch API: status in the range 200-299. -/
def responseOk (status : Nat) : Bool :=
  200 ≤ status && status < 300

/-- One console log line. -/
structure LogEntry where
  level : String
  message : String
deriving DecidableEq

/-- The body of the `try` block of `sendWebhook`: throws on a network
error and on any non-success HTTP status, otherwise logs success. -/
def sendWebhookAttempt (payload : Envelope) (_c : N8NConfig)
    (outcome : DeliveryOutcome) : Except String (List LogEntry) :=
  match outcome with
  | .networkError msg => .error msg
  | .response status statusText responseBody =>
    if responseOk status then
      .ok [⟨"log", "N8N webhook sent successfully: " ++ payload.action ++ " " ++ responseBody⟩]
    else
      .error ("N8N webhook failed: " ++ toString status ++ " " ++ statusText)

/-- `sendWebhook`: wraps the attempt in a catch-all that logs the error
and returns normally, so the caller never observes a failure. -/
def sendWebhook (payload : Envelope) (c : N8NConfig)
    (outcome : DeliveryOutcome) : Except String Unit × List LogEntry :=
  let sending : LogEntry :=
    ⟨"log", "Sending N8N webhook: " ++ payload.action ++ " to " ++ webhookUrl c⟩
  match sendWebhookAttempt payload c outcome with
  | .ok logs => (.ok (), sending :: logs)
  | .error e => (.ok (), [sending, ⟨"error", "Error sending N8N webhook: " ++ e⟩])

/-- `documentUploaded` catalog event. -/
def documentUploaded (user : ActorSnapshot) (document : DocumentMetadata)
    (now : String) : Envelope :=
  { action := "document_uploaded"
    timestamp := now
    user := user
    data := .obj [("document", .obj
      [ ("id", .str document.id)
      , ("name", .str document.name)
      , ("type", .str document.type)
      , ("size", .num document.fileSize)
      , ("folderId", optStr document.folderId)
      , ("tags", .arr (document.tags.map .str))
      , ("url", .str document.fileUrl)
      , ("status", .str document.status)
      , ("priority", .str document.priority)
      ])] }

/-- `documentViewed` catalog event. -/
def documentViewed (user : ActorSnapshot) (document : DocumentMetadata)
    (now : String) : Envelope :=
  { action := "document_viewed"
    timestamp := now
    user := user
    data := .obj [("document", .obj
      [ ("id", .str document.id)
      , ("name", .str document.name)
      , ("type", .str document.type)
      ])] }

/-- `documentDownloaded` catalog event. -/
def documentDownloaded (user : ActorSnapshot) (document : DocumentMetadata)
    (now : String) : Envelope :=
  { action := "document_downloaded"
    timestamp := now
    user := user
    data := .obj [("document", .obj
      [ ("id", .str document.id)
      , ("name", .str document.name)
      , ("type", .str document.type)
      , ("size", .num document.fileSize)
      ])] }

/-- `documentDeleted` catalog event. -/
def documentDeleted (user : ActorSnapshot) (document : DocumentMetadata)
    (now : String) : Envelope :=
  { action := "document_deleted"
    timestamp := now
    user := user
    data := .obj [("document", .obj
      [ ("id", .str document.id)
      , ("name", .str document.name)
      , ("type", .str document.type)
      ])] }

/-- `documentStatusChanged` catalog event. -/
def documentStatusChanged (user : ActorSnapshot) (document : DocumentMetadata)
    (oldStatus newStatus : String) (now : String) : Envelope :=
  { action := "document_status_changed"
    timestamp := now
    user := user
    data := .obj [("document", .obj
      [ ("id", .str document.id)
      , ("name", .str document.name)
      , ("oldStatus", .str oldStatus)
      , ("newStatus", .str newStatus)
      ])] }

/-- `documentShared` catalog event. -/
def documentShared (user : ActorSnapshot) (document : DocumentMetadata)
    (sharedWith : List String) (now : String) : Envelope :=
  { action := "document_shared"
    timestamp := now
    user := user
    data := .obj
      [ ("document", .obj
        [ ("id", .str document.id)
        , ("name", .str document.name)
        ])
      , ("sharedWith", .arr (sharedWith.map .str))
      ] }

/-- `documentEdited` catalog event; `changes` is the partial-update
object serialized as JSON. -/
def documentEdited (user : ActorSnapshot) (document : DocumentMetadata)
    (changes : Json) (now : String) : Envelope :=
  { action := "document_edited"
    timestamp := now
    user := user
    data := .obj
      [ ("document", .obj
        [ ("id", .str document.id)
        , ("name", .str document.name)
        , ("type", .str document.type)
        ])
      , ("changes", changes)
      ] }

/-- `taskCreated` catalog event. -/
def taskCreated (user : ActorSnapshot) (task : TaskData) (now : String) : Envelope :=
  { action := "task_created"
    timestamp := now
    user := user
    data := .obj [("task", .obj
      [ ("id", .str task.id)
      , ("title", .str task.title)
      , ("description", .str task.description)
      , ("priority", .str task.priority)
      , ("assignedTo", .str task.assignedTo)
      , ("dueDate", optStr task.dueDate)
      , ("status", .str task.status)
      ])] }

/-- `taskUpdated` catalog event. -/
def taskUpdated (user : ActorSnapshot) (task : TaskData) (changes : Json)
    (now : String) : Envelope :=
  { action := "task_updated"
    timestamp := now
    user := user
    data := .obj
      [ ("task", .obj
        [ ("id", .str task.id)
        , ("title", .str task.title)
        , ("status", .str task.status)
        ])
      , ("changes", changes)
      ] }

/-- `taskCompleted` catalog event; `completedAt` is a second wall-clock
reading taken while building the payload, modelled by the same `now`. -/
def taskCompleted (user : ActorSnapshot) (task : TaskData) (now : String) : Envelope :=
  { action := "task_completed"
    timestamp := now
    user := user
    data := .obj [("task", .obj
      [ ("id", .str task.id)
      , ("title", .str task.title)
      , ("completedAt", .str now)
      , ("actualHours", optNum task.actualHours)
      ])] }

/-- `taskDeleted` catalog event. -/
def taskDeleted (user : ActorSnapshot) (task : TaskData) (now : String) : Envelope :=
  { action := "task_deleted"
    timestamp := now
    user := user
    data := .obj [("task", .obj
      [ ("id", .str task.id)
      , ("title", .str task.title)
      ])] }

/-- `userInvited` catalog event. -/
def userInvited (inviter : ActorSnapshot) (invitedEmail : String)
    (role : String) (now : String) : Envelope :=
  { action := "user_invited"
    timestamp := now
    user := inviter
    data := .obj
      [ ("invitedEmail", .str invitedEmail)
      , ("role", .str role)
      ] }

/-- `userRoleChanged` catalog event. -/
def userRoleChanged (admin : ActorSnapshot) (targetUser : ActorSnapshot)
    (oldRole newRole : String) (now : String) : Envelope :=
  { action := "user_role_changed"
    timestamp := now
    user := admin
    data := .obj
      [ ("targetUser", .obj
        [ ("id", .str targetUser.id)
        , ("name", .str targetUser.name)
        , ("email", .str targetUser.email)
        ])
      , ("oldRole", .str oldRole)
      , ("newRole", .str newRole)
      ] }

/-- `userProfileUpdated` catalog event. -/
def userProfileUpdated (user : ActorSnapshot) (changes : Json)
    (now : String) : Envelope :=
  { action := "user_profile_updated"
    timestamp := now
    user := user
    data := .obj [("changes", changes)] }

/-- `templateCreated` catalog event; `variables` is
`template.variables?.length || 0`. -/
def templateCreated (user : ActorSnapshot) (template : TemplateData)
    (now : String) : Envelope :=
  { action := "template_created"
    timestamp := now
    user := user
    data := .obj [("template", .obj
      [ ("id", .str template.id)
      , ("name", .str template.name)
      , ("category", .str template.category)
      , ("isPublic", .bool template.isPublic)
      , ("variables", .num ((template.templateVars.map List.length).getD 0))
      ])] }

/-- `templateUsed` catalog event. -/
def templateUsed (user : ActorSnapshot) (template : TemplateData)
    (now : String) : Envelope :=
  { action := "template_used"
    timestamp := now
    user := user
    data := .obj [("template", .obj
      [ ("id", .str template.id)
      , ("name", .str template.name)
      , ("usageCount", .num template.usageCount)
      ])] }

/-- `templateDeleted` catalog event. -/
def templateDeleted (user : ActorSnapshot) (template : TemplateData)
    (now : String) : Envelope :=
  { action := "template_deleted"
    timestamp := now
    user := user
    data := .obj [("template", .obj
      [ ("id", .str template.id)
      , ("name", .str template.name)
      , ("category", .str template.category)
      ])] }

/-- `folderCreated` catalog event. -/
def folderCreated (user : ActorSnapshot) (folder : FolderData)
    (now : String) : Envelope :=
  { action := "folder_created"
    timestamp := now
    user := user
    data := .obj [("folder", .obj
      [ ("id", .str folder.id)
      , ("name", .str folder.name)
      , ("parentId", optStr folder.parentId)
      ])] }

/-- `folderDeleted` catalog event. -/
def folderDeleted (user : ActorSnapshot) (folder : FolderData)
    (now : String) : Envelope :=
  { action := "folder_deleted"
    timestamp := now
    user := user
    data := .obj [("folder", .obj
      [ ("id", .str folder.id)
      , ("name", .str folder.name)
      ])] }

/-- `proposalUploaded` catalog event. -/
def proposalUploaded (user : ActorSnapshot) (proposal : DocumentMetadata)
    (now : String) : Envelope :=
  { action := "proposal_uploaded"
    timestamp := now
    user := user
    data := .obj [("proposal", .obj
      [ ("id", .str proposal.id)
      , ("name", .str proposal.name)
      , ("type", .str proposal.type)
      , ("size", .num proposal.fileSize)
      , ("url", .str proposal.fileUrl)
      , ("status", .str proposal.status)
      , ("tags", .arr (proposal.tags.map .str))
      , ("priority", .str proposal.priority)
      ])] }

/-- `systemLogin` catalog event; `loginTime` is a second wall-clock
reading, modelled by the same `now`; `userAgent` is the ambient
`navigator.userAgent`, passed explicitly. -/
def systemLogin (user : ActorSnapshot) (now : String) (ua : String) : Envelope :=
  { action := "user_login"
    timestamp := now
    user := user
    data := .obj
      [ ("loginTime", .str now)
      , ("userAgent", .str ua)
      ] }

/-- `systemLogout` catalog event; `logoutTime` is a second wall-clock
reading, modelled by the same `now`. -/
def systemLogout (user : ActorSnapshot) (now : String) : Envelope :=
  { action := "user_logout"
    timestamp := now
    user := user
    data := .obj [("logoutTime", .str now)] }

end N8NService

namespace DocumentService

/-- A browser `File` as consumed by `uploadDocument`: name, MIME type
(`file.type`), and byte size. -/
structure BrowserFile where
  name : String
  type : String
  size : Nat
deriving DecidableEq

/-- The `DocumentUpload` interface; optional fields are `none` when the
caller omits them (destructuring defaults are applied in
`uploadDocument`).  `dueDate` is modelled directly as the ISO string
`dueDate?.toISOString()` produces. -/
structure DocumentUpload where
  file : BrowserFile
  folderId : Option String := none
  tags : Option (List String) := none
  priority : Option String := none
  dueDate : Option String := none
deriving DecidableEq

/-- The snake-case row shape handed to `mapToDocumentMetadata`. -/
structure DocumentRow where
  id : String
  name : String
  type : String
  status : String
  file_url : String
  file_size : Nat
  mime_type : String
  tags : List String
  folder_id : Option String
  priority : String
  due_date : Option String
  version : Nat
  created_by : String
  assigned_to : Option String
  created_at : String
  updated_at : String
deriving DecidableEq

/-- `mapToDocumentMetadata`: snake-case row to camel-case metadata
(`data.tags || []` is the identity here because rows always carry a
tag list). -/
def mapToDocumentMetadata (data : DocumentRow) : DocumentMetadata :=
  { id := data.id
    name := data.name
    type := data.type
    status := data.status
    fileUrl := data.file_url
    fileSize := data.file_size
    mimeType := data.mime_type
    tags := data.tags
    folderId := data.folder_id
    priority := data.priority
    dueDate := data.due_date
    version := data.version
    createdBy := data.created_by
    assignedTo := data.assigned_to
    createdAt := data.created_at
    updatedAt := data.updated_at }

/-- Does the first character list start with the second? -/
def charListStartsWith : List Char → List Char → Bool
  | _, [] => true
  | [], _ :: _ => false
  | c :: cs, d :: ds => c == d && charListStartsWith cs ds

/-- Does the second character list occur contiguously inside the first? -/
def charListHasSub : List Char → List Char → Bool
  | [], t => t.isEmpty
  | c :: cs, t => charListStartsWith (c :: cs) t || charListHasSub cs t

/-- JavaScript `String.prototype.includes`: true when `t` occurs as a
contiguous substring of `s`. -/
def strContains (s t : String) : Bool :=
  charListHasSub s.data t.data

/-- JavaScript `String.prototype.toLowerCase` (ASCII case mapping, which
covers every string the services lower-case). -/
def strToLower (s : String) : String :=
  ⟨s.data.map Char.toLower⟩

/-- JavaScript `[...new Set(xs)]`: removes duplicates keeping the first
occurrence of each element. -/
def setDedup (xs : List String) : List String :=
  xs.foldl (fun acc t => if acc.contains t then acc else acc ++ [t]) []

/-- `generateAutoTags`: tags pushed from the MIME type, the lower-cased
file name, and the current year (`new Date().getFullYear()`, passed as
`currentYear`). -/
def generateAutoTags (file : BrowserFile) (currentYear : Nat) : List String :=
  let fileName := strToLower file.name
  let fileType := file.type
  (if strContains fileType "pdf" then ["pdf"] else []) ++
  (if strContains fileType "word" then ["word", "document"] else []) ++
  (if strContains fileType "excel" then ["excel", "spreadsheet"] else []) ++
  (if strContains fileType "image" then ["image"] else []) ++
  (if strContains fileName "contract" then ["contract", "legal"] else []) ++
  (if strContains fileName "nda" then ["nda", "confidential"] else []) ++
  (if strContains fileName "agreement" then ["agreement", "legal"] else []) ++
  (if strContains fileName "invoice" then ["invoice", "financial"] else []) ++
  (if strContains fileName "template" then ["template"] else []) ++
  (if strContains fileName "draft" then ["draft"] else []) ++
  (if strContains fileName "final" then ["final"] else []) ++
  (if strContains fileName "signed" then ["signed"] else []) ++
  (if strContains fileName "proposal" then ["proposal", "business"] else []) ++
  (if strContains fileName (toString currentYear) then [toString currentYear] else [])

/-- `getDocumentType`: MIME type to coarse document type. -/
def getDocumentType (mimeType : String) : String :=
  if strContains mimeType "pdf" then "pdf"
  else if strContains mimeType "word" then "document"
  else if strContains mimeType "excel" then "spreadsheet"
  else if strContains mimeType "image" then "image"
  else if strContains mimeType "text" then "text"
  else "other"

/-- The hard-coded acting user every document-service call passes to the
catalog. -/
def mockUser : ActorSnapshot :=
  { id := "current-user-id"
    name := "Current User"
    email := "user@example.com"
    role := "team" }

/-- `uploadDocument`: builds the document metadata and emits
`document_uploaded`, plus `proposal_uploaded` when the file name or the
merged tags indicate a proposal.  `uuidv4()` is passed as `fileId` and
the wall clock as `now`/`currentYear`. -/
def uploadDocument (up : DocumentUpload) (fileId : String) (now : String)
    (currentYear : Nat) : DocumentMetadata × List Envelope :=
  let file := up.file
  let tags := up.tags.getD []
  let priority := up.priority.getD "medium"
  let fileName := fileId ++ "-" ++ file.name
  let mockFileUrl := "https://example.com/documents/" ++ fileName
  let autoTags := generateAutoTags file currentYear
  let allTags := setDedup (tags ++ autoTags)
  let row : DocumentRow :=
    { id := fileId
      name := file.name
      type := getDocumentType file.type
      status := "draft"
      file_url := mockFileUrl
      file_size := file.size
      mime_type := file.type
      tags := allTags
      folder_id := up.folderId
      priority := priority
      due_date := up.dueDate
      version := 1
      created_by := "current-user-id"
      assigned_to := none
      created_at := now
      updated_at := now }
  let document := mapToDocumentMetadata row
  let events :=
    [N8NService.documentUploaded mockUser document now] ++
    (if strContains (strToLower file.name) "proposal" || allTags.contains "proposal" then
      [N8NService.proposalUploaded mockUser document now]
    else [])
  (document, events)

/-- The hard-coded mock rows `getDocuments` builds (their `folder_id` is
the `folderId` argument of `getDocuments`). -/
def mockDocumentRows (folderId : Option String) : List DocumentRow :=
  [ { id := "1"
      name := "Service Agreement - TechCorp.pdf"
      type := "pdf"
      status := "review"
      file_url := "https://example.com/documents/service-agreement.pdf"
      file_size := 245000
      mime_type := "application/pdf"
      tags := ["service", "tech", "annual"]
      folder_id := folderId
      priority := "high"
      due_date := some "2024-02-01T00:00:00.000Z"
      version := 1
      created_by := "user-1"
      assigned_to := none
      created_at := "2024-01-15T00:00:00.000Z"
      updated_at := "2024-01-20T00:00:00.000Z" }
  , { id := "2"
      name := "NDA Template v2.1.docx"
      type := "document"
      status := "signed"
      file_url := "https://example.com/documents/nda-template.docx"
      file_size := 89000
      mime_type := "application/vnd.openxmlformats-officedocument.wordprocessingml.document"
      tags := ["nda", "template", "standard"]
      folder_id := folderId
      priority := "medium"
      due_date := none
      version := 2
      created_by := "user-2"
      assigned_to := none
      created_at := "2024-01-10T00:00:00.000Z"
      updated_at := "2024-01-18T00:00:00.000Z" }
  ]

/-- `getDocuments`: the mock rows mapped to metadata; no mutable store
backs this list. -/
def getDocuments (folderId : Option String) : List DocumentMetadata :=
  (mockDocumentRows folderId).map mapToDocumentMetadata

/-- `getDocument`: finds a document by id in `getDocuments()` and emits
`document_viewed` when found. -/
def getDocument (id : String) (now : String) :
    Option DocumentMetadata × List Envelope :=
  let documents := getDocuments none
  match documents.find? (fun d => d.id = id) with
  | some document =>
    (some document, [N8NService.documentViewed mockUser document now])
  | none => (none, [])

/-- `downloadDocument`: fetches the document (emitting
`document_viewed`), throws `Document not found` when absent, otherwise
emits `document_downloaded` and returns the mock blob content. -/
def downloadDocument (id : String) (now : String) :
    Except String String × List Envelope :=
  let fetched := getDocument id now
  match fetched.fst with
  | none => (.error "Document not found", fetched.snd)
  | some document =>
    (.ok ("Mock content for " ++ document.name),
     fetched.snd ++ [N8NService.documentDownloaded mockUser document now])

/-- `deleteDocument`: fetches the document (emitting `document_viewed`),
throws `Document not found` when absent, otherwise emits
`document_deleted`.  No store entry is removed: the function body
performs no mutation. -/
def deleteDocument (id : String) (now : String) :
    Except String Unit × List Envelope :=
  let fetched := getDocument id now
  match fetched.fst with
  | none => (.error "Document not found", fetched.snd)
  | some document =>
    (.ok (), fetched.snd ++ [N8NService.documentDeleted mockUser document now])

/-- `shareDocument`: fetches the document (emitting `document_viewed`),
throws `Document not found` when absent, otherwise emits
`document_shared` with the recipient email list. -/
def shareDocument (id : String) (userEmails : List String) (now : String) :
    Except String Unit × List Envelope :=
  let fetched := getDocument id now
  match fetched.fst with
  | none => (.error "Document not found", fetched.snd)
  | some document =>
    (.ok (), fetched.snd ++ [N8NService.documentShared mockUser document userEmails now])

/-- `Partial<DocumentMetadata>`: each field is `some` exactly when the
updates object carries that key. -/
structure DocUpdates where
  id : Option String := none
  name : Option String := none
  type : Option String := none
  status : Option String := none
  fileUrl : Option String := none
  fileSize : Option Nat := none
  mimeType : Option String := none
  tags : Option (List String) := none
  folderId : Option (Option String) := none
  priority : Option String := none
  dueDate : Option (Option String) := none
  version : Option Nat := none
  createdBy : Option String := none
  assignedTo : Option (Option String) := none
  createdAt : Option String := none
  updatedAt : Option String := none
deriving DecidableEq

/-- The JSON fields of the updates object, present keys only, in the
declared field order. -/
def DocUpdates.jsonFields (u : DocUpdates) : List (String × Json) :=
  (match u.id with | some v => [("id", Json.str v)] | none => []) ++
  (match u.name with | some v => [("name", Json.str v)] | none => []) ++
  (match u.type with | some v => [("type", Json.str v)] | none => []) ++
  (match u.status with | some v => [("status", Json.str v)] | none => []) ++
  (match u.fileUrl with | some v => [("fileUrl", Json.str v)] | none => []) ++
  (match u.fileSize with | some v => [("fileSize", Json.num v)] | none => []) ++
  (match u.mimeType with | some v => [("mimeType", Json.str v)] | none => []) ++
  (match u.tags with | some v => [("tags", Json.arr (v.map Json.str))] | none => []) ++
  (match u.folderId with | some v => [("folderId", optStr v)] | none => []) ++
  (match u.priority with | some v => [("priority", Json.str v)] | none => []) ++
  (match u.dueDate with | some v => [("dueDate", optStr v)] | none => []) ++
  (match u.version with | some v => [("version", Json.num v)] | none => []) ++
  (match u.createdBy with | some v => [("createdBy", Json.str v)] | none => []) ++
  (match u.assignedTo with | some v => [("assignedTo", optStr v)] | none => []) ++
  (match u.createdAt with | some v => [("createdAt", Json.str v)] | none => []) ++
  (match u.updatedAt with | some v => [("updatedAt", Json.str v)] | none => [])

/-- The updates object serialized as JSON (the `changes` payload). -/
def DocUpdates.toJson (u : DocUpdates) : Json :=
  .obj u.jsonFields

/-- `Object.keys(updates)`. -/
def DocUpdates.presentKeys (u : DocUpdates) : List String :=
  u.jsonFields.map Prod.fst

/-- The object spread `{ ...currentDoc, ...updates }`: present keys
override the current document field by field. -/
def applyDocUpdates (d : DocumentMetadata) (u : DocUpdates) : DocumentMetadata :=
  { id := u.id.getD d.id
    name := u.name.getD d.name
    type := u.type.getD d.type
    status := u.status.getD d.status
    fileUrl := u.fileUrl.getD d.fileUrl
    fileSize := u.fileSize.getD d.fileSize
    mimeType := u.mimeType.getD d.mimeType
    tags := u.tags.getD d.tags
    folderId := u.folderId.getD d.folderId
    priority := u.priority.getD d.priority
    dueDate := u.dueDate.getD d.dueDate
    version := u.version.getD d.version
    createdBy := u.createdBy.getD d.createdBy
    assignedTo := u.assignedTo.getD d.assignedTo
    createdAt := u.createdAt.getD d.createdAt
    updatedAt := u.updatedAt.getD d.updatedAt }

/-- `updateDocument`: fetches the document (emitting `document_viewed`),
merges the updates with `updatedAt = now`, emits
`document_status_changed` when a truthy status actually changes, and
`document_edited` when the updates object has at least one key. -/
def updateDocument (id : String) (updates : DocUpdates) (now : String) :
    Except String DocumentMetadata × List Envelope :=
  let fetched := getDocument id now
  match fetched.fst with
  | none => (.error "Document not found", fetched.snd)
  | some currentDoc =>
    let oldStatus := currentDoc.status
    let updatedDocument := { applyDocUpdates currentDoc updates with updatedAt := now }
    let statusEvents :=
      match updates.status with
      | some newStatus =>
        if oldStatus ≠ "" ∧ newStatus ≠ "" ∧ oldStatus ≠ newStatus then
          [N8NService.documentStatusChanged mockUser updatedDocument oldStatus newStatus now]
        else []
      | none => []
    let editEvents :=
      if updates.presentKeys.length > 0 then
        [N8NService.documentEdited mockUser updatedDocument updates.toJson now]
      else []
    (.ok updatedDocument, fetched.snd ++ statusEvents ++ editEvents)

end DocumentService

namespace TaskService

/-- The `CreateTaskData` interface; optional fields are `none` when
omitted.  `dueDate` is modelled directly as the ISO string
`dueDate?.toISOString()` produces. -/
structure CreateTaskData where
  title : String
  description : String
  priority : String
  dueDate : Option String := none
  assignedTo : String
  documentId : Option String := none
  estimatedHours : Option Nat := none
  tags : Option (List String) := none
deriving DecidableEq

/-- The hard-coded initial `mockTasks` array of `TaskService`. -/
def initialMockTasks : List TaskData :=
  [ { id := "1"
      title := "Review TechCorp Service Agreement"
      description := "Legal review required for annual service agreement with TechCorp"
      status := "in_progress"
      priority := "high"
      dueDate := some "2024-01-25T00:00:00.000Z"
      assignedTo := "Umar"
      assignedBy := "Legal Team"
      documentId := some "1"
      estimatedHours := some 4
      actualHours := some 2
      tags := ["review", "urgent"]
      createdAt := "2024-01-20T00:00:00.000Z"
      updatedAt := "2024-01-22T00:00:00.000Z" }
  , { id := "2"
      title := "Update NDA Template"
      description := "Incorporate new privacy clauses into standard NDA template"
      status := "todo"
      priority := "medium"
      dueDate := none
      assignedTo := "Legal Team"
      assignedBy := "Umar"
      documentId := none
      estimatedHours := some 2
      actualHours := none
      tags := ["template", "update"]
      createdAt := "2024-01-18T00:00:00.000Z"
      updatedAt := "2024-01-18T00:00:00.000Z" }
  ]

/-- The hard-coded acting user every task-service call passes to the
catalog. -/
def mockUser : ActorSnapshot :=
  { id := "current-user-id"
    name := "Current User"
    email := "user@example.com"
    role := "team" }

/-- `Partial<TaskData>`: each field is `some` exactly when the updates
object carries that key (a present key may still carry an absent value,
as `completeTask` does for an omitted `actualHours`). -/
structure TaskUpdates where
  id : Option String := none
  title : Option String := none
  description : Option String := none
  status : Option String := none
  priority : Option String := none
  dueDate : Option (Option String) := none
  assignedTo : Option String := none
  assignedBy : Option String := none
  documentId : Option (Option String) := none
  estimatedHours : Option (Option Nat) := none
  actualHours : Option (Option Nat) := none
  tags : Option (List String) := none
  createdAt : Option String := none
  updatedAt : Option String := none
deriving DecidableEq

/-- The JSON fields of the updates object, present keys only. -/
def TaskUpdates.jsonFields (u : TaskUpdates) : List (String × Json) :=
  (match u.id with | some v => [("id", Json.str v)] | none => []) ++
  (match u.title with | some v => [("title", Json.str v)] | none => []) ++
  (match u.description with | some v => [("description", Json.str v)] | none => []) ++
  (match u.status with | some v => [("status", Json.str v)] | none => []) ++
  (match u.priority with | some v => [("priority", Json.str v)] | none => []) ++
  (match u.dueDate with | some v => [("dueDate", optStr v)] | none => []) ++
  (match u.assignedTo with | some v => [("assignedTo", Json.str v)] | none => []) ++
  (match u.assignedBy with | some v => [("assignedBy", Json.str v)] | none => []) ++
  (match u.documentId with | some v => [("documentId", optStr v)] | none => []) ++
  (match u.estimatedHours with | some v => [("estimatedHours", optNum v)] | none => []) ++
  (match u.actualHours with | some v => [("actualHours", optNum v)] | none => []) ++
  (match u.tags with | some v => [("tags", Json.arr (v.map Json.str))] | none => []) ++
  (match u.createdAt with | some v => [("createdAt", Json.str v)] | none => []) ++
  (match u.updatedAt with | some v => [("updatedAt", Json.str v)] | none => [])

/-- The updates object serialized as JSON (the `changes` payload). -/
def TaskUpdates.toJson (u : TaskUpdates) : Json :=
  .obj u.jsonFields

/-- The object spread `{ ...oldTask, ...updates }` followed by
`updatedAt: now`: present keys override field by field. -/
def applyTaskUpdates (t : TaskData) (u : TaskUpdates) (now : String) : TaskData :=
  { id := u.id.getD t.id
    title := u.title.getD t.title
    description := u.description.getD t.description
    status := u.status.getD t.status
    priority := u.priority.getD t.priority
    dueDate := u.dueDate.getD t.dueDate
    assignedTo := u.assignedTo.getD t.assignedTo
    assignedBy := u.assignedBy.getD t.assignedBy
    documentId := u.documentId.getD t.documentId
    estimatedHours := u.estimatedHours.getD t.estimatedHours
    actualHours := u.actualHours.getD t.actualHours
    tags := u.tags.getD t.tags
    createdAt := u.createdAt.getD t.createdAt
    updatedAt := now }

/-- Replace the first task whose id matches (the `findIndex` plus
index-assignment of `updateTask`); `none` when no task matches. -/
def replaceFirst (tasks : List TaskData) (id : String) (f : TaskData → TaskData) :
    Option (TaskData × List TaskData) :=
  match tasks with
  | [] => none
  | t :: rest =>
    if t.id = id then some (f t, f t :: rest)
    else
      match replaceFirst rest id f with
      | some (u, rest2) => some (u, t :: rest2)
      | none => none

/-- Remove the first task whose id matches (the `findIndex` plus
`splice` of `deleteTask`); `none` when no task matches. -/
def removeFirst (tasks : List TaskData) (id : String) :
    Option (TaskData × List TaskData) :=
  match tasks with
  | [] => none
  | t :: rest =>
    if t.id = id then some (t, rest)
    else
      match removeFirst rest id with
      | some (u, rest2) => some (u, t :: rest2)
      | none => none

/-- `createTask`: appends the new task to the store and emits
`task_created`.  `Date.now()` is passed as `nowMs`. -/
def createTask (tasks : List TaskData) (c : CreateTaskData) (nowMs : Nat)
    (now : String) : TaskData × List TaskData × List Envelope :=
  let newTask : TaskData :=
    { id := toString nowMs
      title := c.title
      description := c.description
      status := "todo"
      priority := c.priority
      dueDate := c.dueDate
      assignedTo := c.assignedTo
      assignedBy := "current-user-id"
      documentId := c.documentId
      estimatedHours := c.estimatedHours
      actualHours := none
      tags := c.tags.getD []
      createdAt := now
      updatedAt := now }
  (newTask, tasks ++ [newTask], [N8NService.taskCreated mockUser newTask now])

/-- `updateTask`: replaces the first task with the given id by the merged
task and emits `task_updated`; throws `Task not found` otherwise. -/
def updateTask (tasks : List TaskData) (id : String) (updates : TaskUpdates)
    (now : String) : Except String (TaskData × List TaskData) × List Envelope :=
  match replaceFirst tasks id (fun old => applyTaskUpdates old updates now) with
  | none => (.error "Task not found", [])
  | some (updatedTask, tasks2) =>
    (.ok (updatedTask, tasks2),
     [N8NService.taskUpdated mockUser updatedTask updates.toJson now])

/-- `deleteTask`: removes the first task with the given id and emits
`task_deleted`; throws `Task not found` otherwise. -/
def deleteTask (tasks : List TaskData) (id : String) (now : String) :
    Except String (List TaskData) × List Envelope :=
  match removeFirst tasks id with
  | none => (.error "Task not found", [])
  | some (task, tasks2) =>
    (.ok tasks2, [N8NService.taskDeleted mockUser task now])

/-- `completeTask`: updates the task with
`{ status: "completed", actualHours }` (both keys present) via
`updateTask`, then emits `task_completed` for the updated task. -/
def completeTask (tasks : List TaskData) (id : String)
    (actualHours : Option Nat) (now : String) :
    Except String (TaskData × List TaskData) × List Envelope :=
  let updates : TaskUpdates :=
    { status := some "completed", actualHours := some actualHours }
  let updated := updateTask tasks id updates now
  match updated.fst with
  | .error e => (.error e, updated.snd)
  | .ok (updatedTask, tasks2) =>
    (.ok (updatedTask, tasks2),
     updated.snd ++ [N8NService.taskCompleted mockUser updatedTask now])

end TaskService

namespace AuthContext

/-- The `UserProfile` shape used by the auth context (fields as
constructed by the demo users in `AuthContext.tsx`). -/
structure UserProfile where
  id : String
  email : String
  name : String
  role : String
  department : String
  phone : String
  bio : String
  createdAt : String
  updatedAt : String
  lastLogin : String
  isActive : Bool
deriving DecidableEq

/-- The actor snapshot `systemLogout` builds from a profile. -/
def UserProfile.toActor (u : UserProfile) : ActorSnapshot :=
  { id := u.id, name := u.name, email := u.email, role := u.role }

/-- The reducer state of the auth context. -/
structure AuthState where
  user : Option UserProfile
  isAuthenticated : Bool
  isLoading : Bool
deriving DecidableEq

/-- The browser local storage, restricted to the single key
`pocketlaw_user` the auth context touches. -/
structure Browser where
  pocketlawUser : Option String
deriving DecidableEq

/-- Serialization stand-in for `JSON.stringify(user)` (only its presence
matters to the embedding). -/
def stringifyUser (u : UserProfile) : String :=
  u.id ++ ":" ++ u.email

/-- `logout`: when a user is present, sends `user_logout` inside a
`try`/`catch` (and `sendWebhook` itself never throws); then
unconditionally removes the stored user and dispatches `LOGOUT`.
Returns the new state, the new storage, and the emitted envelopes. -/
def logout (st : AuthState) (_storage : Browser) (now : String)
    (c : N8NService.N8NConfig) (outcome : N8NService.DeliveryOutcome) :
    Except String (AuthState × Browser) × List Envelope :=
  let attempted :=
    match st.user with
    | some u =>
      let env := N8NService.systemLogout u.toActor now
      match (N8NService.sendWebhook env c outcome).fst with
      | .ok _ => ([env], Except.ok ())
      | .error _ => ([env], Except.ok ())  -- the catch block only logs
    | none => ([], Except.ok ())
  let newStorage : Browser := { pocketlawUser := none }
  let newState : AuthState :=
    { user := none, isAuthenticated := false, isLoading := false }
  (attempted.snd.map (fun _ => (newState, newStorage)), attempted.fst)

end AuthContext

/-!
The authoritative action to data-field table of section 6 of the
specification, written from the words of the spec (not from the source),
to be compared with the payloads the embedded catalog builds.  Each
entry lists the top-level keys of `data` in order; a `some` nested list
fixes the keys of that nested entity object.
-/

/-- Section-6 table: per action, the `data` field names and, for entity
fields, the entity field names. -/
def specDataShape : String → List (String × Option (List String))
  | "document_uploaded" =>
    [("document", some ["id", "name", "type", "size", "folderId", "tags", "url", "status", "priority"])]
  | "document_viewed" => [("document", some ["id", "name", "type"])]
  | "document_downloaded" => [("document", some ["id", "name", "type", "size"])]
  | "document_deleted" => [("document", some ["id", "name", "type"])]
  | "document_status_changed" => [("document", some ["id", "name", "oldStatus", "newStatus"])]
  | "document_shared" => [("document", some ["id", "name"]), ("sharedWith", none)]
  | "document_edited" => [("document", some ["id", "name", "type"]), ("changes", none)]
  | "task_created" =>
    [("task", some ["id", "title", "description", "priority", "assignedTo", "dueDate", "status"])]
  | "task_updated" => [("task", some ["id", "title", "status"]), ("changes", none)]
  | "task_completed" => [("task", some ["id", "title", "completedAt", "actualHours"])]
  | "task_deleted" => [("task", some ["id", "title"])]
  | "user_login" => [("loginTime", none), ("userAgent", none)]
  | "user_logout" => [("logoutTime", none)]
  | "user_profile_updated" => [("changes", none)]
  | "proposal_uploaded" =>
    [("proposal", some ["id", "name", "type", "size", "url", "status", "tags", "priority"])]
  | _ => []

/-- Check one table entry against a data object: a scalar entry only
requires the key; an entity entry requires the key to hold an object
with exactly the listed keys in order. -/
def fieldShapeOk (d : Json) (entry : String × Option (List String)) : Bool :=
  match entry.snd with
  | none => true
  | some ks =>
    match d.getField entry.fst with
    | some (.obj nested) => nested.map Prod.fst == ks
    | _ => false

/-- A data payload matches the section-6 table for an action exactly
when its top-level keys are exactly the listed ones (no extra, no
missing, same order) and every nested entity has exactly its listed
keys. -/
def shapeMatches (action : String) (d : Json) : Bool :=
  (d.keys == (specDataShape action).map Prod.fst) &&
  (specDataShape action).all (fieldShapeOk d)

/-!
Delivery composition: a domain operation that mutates, emits its
envelopes and awaits each delivery succeeds exactly when the mutation
does, because `sendWebhook` returns normally on every outcome.
-/

/-- Deliver every envelope of a list in order, taking the i-th fetch
outcome from an oracle, propagating the first failure (there is none:
`sendWebhook` always returns normally). -/
def deliverAll (envs : List Envelope) (c : N8NService.N8NConfig)
    (oracle : Nat → N8NService.DeliveryOutcome) (i : Nat) : Except String Unit :=
  match envs with
  | [] => .ok ()
  | e :: rest =>
    match (N8NService.sendWebhook e c (oracle i)).fst with
    | .ok _ => deliverAll rest c oracle (i + 1)
    | .error msg => .error msg

/-- Run a domain operation together with the awaited delivery of each
envelope it emitted: a delivery error would abort the operation, a
domain error is propagated as is. -/
def runWithDelivery {α : Type} (r : Except String α × List Envelope)
    (c : N8NService.N8NConfig) (oracle : Nat → N8NService.DeliveryOutcome) :
    Except String α :=
  match r.fst with
  | .error e => .error e
  | .ok a =>
    match deliverAll r.snd c oracle 0 with
    | .ok _ => .ok a
    | .error msg => .error msg

/-- Replace the value of one field nested one level inside a JSON
object (used to state in which single field two payloads differ). -/
def setNestedField (j : Json) (k1 k2 : String) (v : Json) : Json :=
  match j with
  | .obj fields => .obj (fields.map fun p =>
      if p.fst = k1 then (p.fst, p.snd.setField k2 v) else p)
  | other => other

/-- A concrete task used to instantiate counterexamples. -/
def sampleTask : TaskData :=
  { id := "1"
    title := "Review TechCorp Service Agreement"
    description := "Legal review required for annual service agreement with TechCorp"
    status := "in_progress"
    priority := "high"
    dueDate := some "2024-01-25T00:00:00.000Z"
    assignedTo := "Umar"
    assignedBy := "Legal Team"
    documentId := some "1"
    estimatedHours := some 4
    actualHours := some 2
    tags := ["review", "urgent"]
    createdAt := "2024-01-20T00:00:00.000Z"
    updatedAt := "2024-01-22T00:00:00.000Z" }

/-- The file of the section-8 upload scenario. -/
def ndaFile : DocumentService.BrowserFile :=
  { name := "NDA_Agreement_2024.pdf"
    type := "application/pdf"
    size := 52000 }

/-- The upload request of the section-8 upload scenario (no caller tags,
no folder, defaults applied inside `uploadDocument`). -/
def ndaUpload : DocumentService.DocumentUpload :=
  { file := ndaFile }

/-- Helper: `sendWebhook` returns normally on every outcome. -/
theorem sendWebhook_fst_ok (p : Envelope) (c : N8NService.N8NConfig)
    (o : N8NService.DeliveryOutcome) :
    (N8NService.sendWebhook p c o).fst = Except.ok () := by
  unfold N8NService.sendWebhook
  cases N8NService.sendWebhookAttempt p c o <;> rfl

/-- Helper: awaited delivery of a whole envelope list always succeeds. -/
theorem deliverAll_ok (envs : List Envelope) (c : N8NService.N8NConfig)
    (oracle : Nat → N8NService.DeliveryOutcome) (i : Nat) :
    deliverAll envs c oracle i = Except.ok () := by
  induction envs generalizing i with
  | nil => rfl
  | cons e rest ih =>
    unfold deliverAll
    rw [sendWebhook_fst_ok]
    exact ih (i + 1)

/-- C2: the delivery transport never throws: for every payload,
configuration and fetch outcome (network error, any non-2xx status,
or success) `sendWebhook` returns normally, and a domain operation
that awaits the delivery of each envelope it emitted reports exactly
the result of its own mutation, whatever the delivery outcomes. -/
theorem C2_sendWebhook_never_throws :
    (∀ (p : Envelope) (c : N8NService.N8NConfig) (o : N8NService.DeliveryOutcome),
      (N8NService.sendWebhook p c o).fst = Except.ok ()) ∧
    (∀ {α : Type} (r : Except String α × List Envelope) (c : N8NService.N8NConfig)
       (oracle : Nat → N8NService.DeliveryOutcome),
      runWithDelivery r c oracle = r.fst) := by
  refine ⟨sendWebhook_fst_ok, ?_⟩
  intro α r c oracle
  unfold runWithDelivery
  cases r.fst with
  | error e => rfl
  | ok a => rw [deliverAll_ok]

/-- C8: the delivery endpoint is a function of the development flag and
the two URL settings alone: the flag selects the test URL in
development and the production URL otherwise, each falling back to its
hard-coded default when its environment variable is unset, and the
payload has no influence on the request URL. -/
theorem C8_endpoint_selection :
    (∀ (c : N8NService.N8NConfig) (p : Envelope),
      (N8NService.webhookRequest c p).url =
        if c.dev then N8NService.jsOr c.viteTestUrl N8NService.defaultTestUrl
        else N8NService.jsOr c.viteProductionUrl N8NService.defaultProductionUrl) ∧
    (∀ (c : N8NService.N8NConfig) (p q : Envelope),
      (N8NService.webhookRequest c p).url = (N8NService.webhookRequest c q).url) ∧
    (∀ (pu : Option String) (p : Envelope),
      (N8NService.webhookRequest ⟨true, none, pu⟩ p).url = N8NService.defaultTestUrl) ∧
    (∀ (tu : Option String) (p : Envelope),
      (N8NService.webhookRequest ⟨false, tu, none⟩ p).url = N8NService.defaultProductionUrl) :=
  ⟨fun _ _ => rfl, fun _ _ _ => rfl, fun _ _ => rfl, fun _ _ => rfl⟩

/-- C3: for every catalog operation of the section-6 table, the data
payload carries exactly the fields the table fixes for that action (no
extra, no missing), with `size` from the entity's `fileSize`, `url`
from its `fileUrl`, and `task_completed` carrying `completedAt` (the
build-time clock) and `actualHours`; the key shape depends on nothing
but the action. -/
theorem C3_data_shape_matches_table :
    (∀ (u : ActorSnapshot) (d : DocumentMetadata) (t : String),
      shapeMatches "document_uploaded" (N8NService.documentUploaded u d t).data = true ∧
      (N8NService.documentUploaded u d t).data.getField2 "document" "size" =
        some (.num d.fileSize) ∧
      (N8NService.documentUploaded u d t).data.getField2 "document" "url" =
        some (.str d.fileUrl)) ∧
    (∀ (u : ActorSnapshot) (d : DocumentMetadata) (t : String),
      shapeMatches "document_viewed" (N8NService.documentViewed u d t).data = true) ∧
    (∀ (u : ActorSnapshot) (d : DocumentMetadata) (t : String),
      shapeMatches "document_downloaded" (N8NService.documentDownloaded u d t).data = true ∧
      (N8NService.documentDownloaded u d t).data.getField2 "document" "size" =
        some (.num d.fileSize)) ∧
    (∀ (u : ActorSnapshot) (d : DocumentMetadata) (t : String),
      shapeMatches "document_deleted" (N8NService.documentDeleted u d t).data = true) ∧
    (∀ (u : ActorSnapshot) (d : DocumentMetadata) (os ns t : String),
      shapeMatches "document_status_changed"
        (N8NService.documentStatusChanged u d os ns t).data = true) ∧
    (∀ (u : ActorSnapshot) (d : DocumentMetadata) (sw : List String) (t : String),
      shapeMatches "document_shared" (N8NService.documentShared u d sw t).data = true) ∧
    (∀ (u : ActorSnapshot) (d : DocumentMetadata) (ch : Json) (t : String),
      shapeMatches "document_edited" (N8NService.documentEdited u d ch t).data = true) ∧
    (∀ (u : ActorSnapshot) (tk : TaskData) (t : String),
      shapeMatches "task_created" (N8NService.taskCreated u tk t).data = true) ∧
    (∀ (u : ActorSnapshot) (tk : TaskData) (ch : Json) (t : String),
      shapeMatches "task_updated" (N8NService.taskUpdated u tk ch t).data = true) ∧
    (∀ (u : ActorSnapshot) (tk : TaskData) (t : String),
      shapeMatches "task_completed" (N8NService.taskCompleted u tk t).data = true ∧
      (N8NService.taskCompleted u tk t).data.getField2 "task" "completedAt" =
        some (.str t) ∧
      (N8NService.taskCompleted u tk t).data.getField2 "task" "actualHours" =
        some (optNum tk.actualHours)) ∧
    (∀ (u : ActorSnapshot) (tk : TaskData) (t : String),
      shapeMatches "task_deleted" (N8NService.taskDeleted u tk t).data = true) ∧
    (∀ (u : ActorSnapshot) (t ua : String),
      shapeMatches "user_login" (N8NService.systemLogin u t ua).data = true) ∧
    (∀ (u : ActorSnapshot) (t : String),
      shapeMatches "user_logout" (N8NService.systemLogout u t).data = true) ∧
    (∀ (u : ActorSnapshot) (ch : Json) (t : String),
      shapeMatches "user_profile_updated" (N8NService.userProfileUpdated u ch t).data = true) ∧
    (∀ (u : ActorSnapshot) (d : DocumentMetadata) (t : String),
      shapeMatches "proposal_uploaded" (N8NService.proposalUploaded u d t).data = true ∧
      (N8NService.proposalUploaded u d t).data.getField2 "proposal" "size" =
        some (.num d.fileSize) ∧
      (N8NService.proposalUploaded u d t).data.getField2 "proposal" "url" =
        some (.str d.fileUrl)) :=
  ⟨fun _ _ _ => ⟨rfl, rfl, rfl⟩, fun _ _ _ => rfl, fun _ _ _ => ⟨rfl, rfl⟩,
   fun _ _ _ => rfl, fun _ _ _ _ _ => rfl, fun _ _ _ _ => rfl, fun _ _ _ _ => rfl,
   fun _ _ _ => rfl, fun _ _ _ _ => rfl, fun _ _ _ => ⟨rfl, rfl, rfl⟩,
   fun _ _ _ => rfl, fun _ _ _ => rfl, fun _ _ => rfl, fun _ _ _ => rfl,
   fun _ _ _ => ⟨rfl, rfl, rfl⟩⟩

/-- C6 counterexample: two `taskCompleted` calls with the same actor and
the same task, at two instants, agree on action and actor but differ in
`data` (the nested `completedAt` is a second clock reading), so the
envelopes are not identical except for the top-level timestamp. -/
theorem C6_counterexample_taskCompleted_data :
    (N8NService.taskCompleted TaskService.mockUser sampleTask "T1").action =
      (N8NService.taskCompleted TaskService.mockUser sampleTask "T2").action ∧
    (N8NService.taskCompleted TaskService.mockUser sampleTask "T1").user =
      (N8NService.taskCompleted TaskService.mockUser sampleTask "T2").user ∧
    (N8NService.taskCompleted TaskService.mockUser sampleTask "T1").data ≠
      (N8NService.taskCompleted TaskService.mockUser sampleTask "T2").data := by
  refine ⟨rfl, rfl, fun h => ?_⟩
  have h2 : (some (Json.str "T1") : Option Json) = some (Json.str "T2") :=
    congrArg (fun j => j.getField2 "task" "completedAt") h
  injection h2 with h3
  injection h3 with h4
  exact absurd h4 (by decide)

/-- C6 amended: two calls of the same catalog operation with the same
actor and entity produce envelopes identical except for the top-level
timestamp, except that `task_completed`, `user_login` and `user_logout`
additionally differ in the clock-valued data field (`completedAt`,
`loginTime`, `logoutTime`) that is read while the payload is built. -/
theorem C6_amended_identical_except_times :
    (∀ (u : ActorSnapshot) (d : DocumentMetadata) (t1 t2 : String),
      N8NService.documentUploaded u d t1 =
        { N8NService.documentUploaded u d t2 with timestamp := t1 }) ∧
    (∀ (u : ActorSnapshot) (d : DocumentMetadata) (t1 t2 : String),
      N8NService.documentViewed u d t1 =
        { N8NService.documentViewed u d t2 with timestamp := t1 }) ∧
    (∀ (u : ActorSnapshot) (d : DocumentMetadata) (t1 t2 : String),
      N8NService.documentDownloaded u d t1 =
        { N8NService.documentDownloaded u d t2 with timestamp := t1 }) ∧
    (∀ (u : ActorSnapshot) (d : DocumentMetadata) (t1 t2 : String),
      N8NService.documentDeleted u d t1 =
        { N8NService.documentDeleted u d t2 with timestamp := t1 }) ∧
    (∀ (u : ActorSnapshot) (d : DocumentMetadata) (os ns t1 t2 : String),
      N8NService.documentStatusChanged u d os ns t1 =
        { N8NService.documentStatusChanged u d os ns t2 with timestamp := t1 }) ∧
    (∀ (u : ActorSnapshot) (d : DocumentMetadata) (sw : List String) (t1 t2 : String),
      N8NService.documentShared u d sw t1 =
        { N8NService.documentShared u d sw t2 with timestamp := t1 }) ∧
    (∀ (u : ActorSnapshot) (d : DocumentMetadata) (ch : Json) (t1 t2 : String),
      N8NService.documentEdited u d ch t1 =
        { N8NService.documentEdited u d ch t2 with timestamp := t1 }) ∧
    (∀ (u : ActorSnapshot) (tk : TaskData) (t1 t2 : String),
      N8NService.taskCreated u tk t1 =
        { N8NService.taskCreated u tk t2 with timestamp := t1 }) ∧
    (∀ (u : ActorSnapshot) (tk : TaskData) (ch : Json) (t1 t2 : String),
      N8NService.taskUpdated u tk ch t1 =
        { N8NService.taskUpdated u tk ch t2 with timestamp := t1 }) ∧
    (∀ (u : ActorSnapshot) (tk : TaskData) (t1 t2 : String),
      N8NService.taskCompleted u tk t1 =
        { N8NService.taskCompleted u tk t2 with
            timestamp := t1
            data := setNestedField (N8NService.taskCompleted u tk t2).data
              "task" "completedAt" (.str t1) }) ∧
    (∀ (u : ActorSnapshot) (tk : TaskData) (t1 t2 : String),
      N8NService.taskDeleted u tk t1 =
        { N8NService.taskDeleted u tk t2 with timestamp := t1 }) ∧
    (∀ (u : ActorSnapshot) (em r t1 t2 : String),
      N8NService.userInvited u em r t1 =
        { N8NService.userInvited u em r t2 with timestamp := t1 }) ∧
    (∀ (a tu : ActorSnapshot) (orl nrl t1 t2 : String),
      N8NService.userRoleChanged a tu orl nrl t1 =
        { N8NService.userRoleChanged a tu orl nrl t2 with timestamp := t1 }) ∧
    (∀ (u : ActorSnapshot) (ch : Json) (t1 t2 : String),
      N8NService.userProfileUpdated u ch t1 =
        { N8NService.userProfileUpdated u ch t2 with timestamp := t1 }) ∧
    (∀ (u : ActorSnapshot) (tp : TemplateData) (t1 t2 : String),
      N8NService.templateCreated u tp t1 =
        { N8NService.templateCreated u tp t2 with timestamp := t1 }) ∧
    (∀ (u : ActorSnapshot) (tp : TemplateData) (t1 t2 : String),
      N8NService.templateUsed u tp t1 =
        { N8NService.templateUsed u tp t2 with timestamp := t1 }) ∧
    (∀ (u : ActorSnapshot) (tp : TemplateData) (t1 t2 : String),
      N8NService.templateDeleted u tp t1 =
        { N8NService.templateDeleted u tp t2 with timestamp := t1 }) ∧
    (∀ (u : ActorSnapshot) (f : FolderData) (t1 t2 : String),
      N8NService.folderCreated u f t1 =
        { N8NService.folderCreated u f t2 with timestamp := t1 }) ∧
    (∀ (u : ActorSnapshot) (f : FolderData) (t1 t2 : String),
      N8NService.folderDeleted u f t1 =
        { N8NService.folderDeleted u f t2 with timestamp := t1 }) ∧
    (∀ (u : ActorSnapshot) (d : DocumentMetadata) (t1 t2 : String),
      N8NService.proposalUploaded u d t1 =
        { N8NService.proposalUploaded u d t2 with timestamp := t1 }) ∧
    (∀ (u : ActorSnapshot) (t1 t2 ua : String),
      N8NService.systemLogin u t1 ua =
        { N8NService.systemLogin u t2 ua with
            timestamp := t1
            data := Json.setField (N8NService.systemLogin u t2 ua).data
              "loginTime" (.str t1) }) ∧
    (∀ (u : ActorSnapshot) (t1 t2 : String),
      N8NService.systemLogout u t1 =
        { N8NService.systemLogout u t2 with
            timestamp := t1
            data := Json.setField (N8NService.systemLogout u t2).data
              "logoutTime" (.str t1) }) :=
  ⟨fun _ _ _ _ => rfl, fun _ _ _ _ => rfl, fun _ _ _ _ => rfl, fun _ _ _ _ => rfl,
   fun _ _ _ _ _ _ => rfl, fun _ _ _ _ _ => rfl, fun _ _ _ _ _ => rfl,
   fun _ _ _ _ => rfl, fun _ _ _ _ _ => rfl, fun _ _ _ _ => rfl, fun _ _ _ _ => rfl,
   fun _ _ _ _ _ => rfl, fun _ _ _ _ _ _ => rfl, fun _ _ _ _ => rfl,
   fun _ _ _ _ => rfl, fun _ _ _ _ => rfl, fun _ _ _ _ => rfl, fun _ _ _ _ => rfl,
   fun _ _ _ _ => rfl, fun _ _ _ _ => rfl, fun _ _ _ _ => rfl, fun _ _ _ => rfl⟩

/-- C4 counterexample: the date-based auto-tag is the current year, so
an upload of `NDA_Agreement_2024.pdf` performed in a year other than
2024 (here 2026) yields tags without `2024`; the claim as stated, with
no condition on the upload instant, is false. -/
theorem C4_counterexample_year_tag :
    (DocumentService.uploadDocument ndaUpload "f1" "T" 2026).fst.tags =
      ["pdf", "nda", "confidential", "agreement", "legal"] ∧
    ¬ "2024" ∈ (DocumentService.uploadDocument ndaUpload "f1" "T" 2026).fst.tags := by
  refine ⟨rfl, ?_⟩
  decide

/-- C4 amended: uploaded in the year 2024 (so that the date-based
auto-tag matches the `2024` in the file name), the scenario holds:
the document tags are exactly pdf, nda, confidential, agreement,
legal, 2024 (duplicates removed, hence nodup), one `document_uploaded`
event is emitted, and its data carries those tags. -/
theorem C4_amended_upload_scenario :
    ((DocumentService.uploadDocument ndaUpload "f1" "T" 2024).fst.tags =
      ["pdf", "nda", "confidential", "agreement", "legal", "2024"]) ∧
    ((DocumentService.uploadDocument ndaUpload "f1" "T" 2024).fst.tags.Nodup) ∧
    ((DocumentService.uploadDocument ndaUpload "f1" "T" 2024).snd.map Envelope.action =
      ["document_uploaded"]) ∧
    ((DocumentService.uploadDocument ndaUpload "f1" "T" 2024).snd.map
        (fun e => e.data.getField2 "document" "tags") =
      [some (.arr (["pdf", "nda", "confidential", "agreement", "legal", "2024"].map Json.str))]) := by
  refine ⟨rfl, by decide, rfl, rfl⟩

/-- C5: completing task `"2"` with `actualHours = 3` marks it completed
with `actualHours = 3` both in the returned task and in the stored
list, and the final emitted event is `task_completed` with
`completedAt` set to the build-time clock and `actualHours` equal to 3
(the internal update also emits `task_updated` first). -/
theorem C5_complete_task_scenario :
    ((TaskService.completeTask TaskService.initialMockTasks "2" (some 3) "T").fst.map
        (fun r => (r.fst.id, r.fst.status, r.fst.actualHours)) =
      Except.ok ("2", "completed", some 3)) ∧
    ((TaskService.completeTask TaskService.initialMockTasks "2" (some 3) "T").fst.map
        (fun r => r.snd.map (fun t => (t.id, t.status, t.actualHours))) =
      Except.ok [("1", "in_progress", some 2), ("2", "completed", some 3)]) ∧
    ((TaskService.completeTask TaskService.initialMockTasks "2" (some 3) "T").snd.map
        Envelope.action = ["task_updated", "task_completed"]) ∧
    (((TaskService.completeTask TaskService.initialMockTasks "2" (some 3) "T").snd.getLast?).map
        (fun e => (e.action, e.data.getField2 "task" "completedAt",
          e.data.getField2 "task" "actualHours")) =
      some ("task_completed", some (.str "T"), some (.num 3))) :=
  ⟨rfl, rfl, rfl, rfl⟩

/-- Helper: the ids of the mock document store. -/
theorem getDocuments_ids :
    (DocumentService.getDocuments none).map DocumentMetadata.id = ["1", "2"] := rfl

/-- C7: deleting a document id that matches no stored document raises
the domain error `Document not found` and emits no event of any kind. -/
theorem C7_delete_nonexistent (id now : String)
    (h : ¬ id ∈ (DocumentService.getDocuments none).map DocumentMetadata.id) :
    DocumentService.deleteDocument id now = (Except.error "Document not found", []) := by
  rw [getDocuments_ids] at h
  simp only [List.mem_cons, List.not_mem_nil, or_false, not_or] at h
  obtain ⟨h1, h2⟩ := h
  simp [DocumentService.deleteDocument, DocumentService.getDocument,
    DocumentService.getDocuments, DocumentService.mockDocumentRows,
    DocumentService.mapToDocumentMetadata, List.find?, Ne.symm h1, Ne.symm h2]

/-- C7 witness: deleting id `"999"` fails with `Document not found` and
emits nothing. -/
theorem C7_delete_nonexistent_witness :
    DocumentService.deleteDocument "999" "T" = (Except.error "Document not found", []) :=
  C7_delete_nonexistent "999" "T" (by decide)

/-- C9: `deleteDocument` removes nothing: for every stored id the call
succeeds, it only emits the `document_viewed` and `document_deleted`
envelopes, and `getDocuments()` afterwards still returns the unchanged
mock list, the document with that id included (the function has no
store to mutate). -/
theorem C9_delete_preserves_store (id now : String)
    (h : id ∈ (DocumentService.getDocuments none).map DocumentMetadata.id) :
    (DocumentService.deleteDocument id now).fst = Except.ok () ∧
    (DocumentService.deleteDocument id now).snd.map Envelope.action =
      ["document_viewed", "document_deleted"] ∧
    (DocumentService.getDocuments none).map DocumentMetadata.id = ["1", "2"] ∧
    id ∈ (DocumentService.getDocuments none).map DocumentMetadata.id := by
  refine ⟨?_, ?_, getDocuments_ids, h⟩ <;>
  · rw [getDocuments_ids] at h
    simp only [List.mem_cons, List.not_mem_nil, or_false] at h
    rcases h with h | h <;> subst h <;> rfl

/-- C9 witness: deleting stored id `"1"` succeeds while the store keeps
both documents. -/
theorem C9_delete_preserves_store_witness :
    (DocumentService.deleteDocument "1" "T").fst = Except.ok () ∧
    "1" ∈ (DocumentService.getDocuments none).map DocumentMetadata.id :=
  ⟨(C9_delete_preserves_store "1" "T" (by decide)).1,
   (C9_delete_preserves_store "1" "T" (by decide)).2.2.2⟩

/-- C10: logging out with no authenticated user emits no envelope at
all, still clears the stored user record and leaves the state
unauthenticated; and logout always returns normally with that cleared
state, whatever the delivery outcome of the logout webhook. -/
theorem C10_logout_no_user :
    (∀ (st : AuthContext.AuthState) (storage : AuthContext.Browser) (now : String)
       (c : N8NService.N8NConfig) (o : N8NService.DeliveryOutcome),
      st.user = none →
      AuthContext.logout st storage now c o =
        (Except.ok (⟨none, false, false⟩, ⟨none⟩), [])) ∧
    (∀ (st : AuthContext.AuthState) (storage : AuthContext.Browser) (now : String)
       (c : N8NService.N8NConfig) (o : N8NService.DeliveryOutcome),
      (AuthContext.logout st storage now c o).fst =
        Except.ok (⟨none, false, false⟩, ⟨none⟩)) := by
  constructor
  · intro st storage now c o h
    simp only [AuthContext.logout, h]
    rfl
  · intro st storage now c o
    rcases hu : st.user with _ | u
    · simp only [AuthContext.logout, hu]
      rfl
    · simp only [AuthContext.logout, hu]
      rw [sendWebhook_fst_ok]
      rfl

/-- C10 witness: a logout with no user, against an unreachable endpoint,
emits nothing, clears the storage and returns the unauthenticated
state. -/
theorem C10_logout_no_user_witness :
    AuthContext.logout ⟨none, false, true⟩ ⟨some "stale"⟩ "T"
        ⟨true, none, none⟩ (.networkError "down") =
      (Except.ok (⟨none, false, false⟩, ⟨none⟩), []) :=
  C10_logout_no_user.1 ⟨none, false, true⟩ ⟨some "stale"⟩ "T"
    ⟨true, none, none⟩ (.networkError "down") rfl

/-- C1 counterexample: a successful `deleteDocument` call on stored id
`"1"` emits two envelopes, not exactly one: the internal document fetch
emits `document_viewed` before `document_deleted`. -/
theorem C1_counterexample_delete_emits_two :
    (DocumentService.deleteDocument "1" "T").fst = Except.ok () ∧
    (DocumentService.deleteDocument "1" "T").snd.map Envelope.action =
      ["document_viewed", "document_deleted"] ∧
    (DocumentService.deleteDocument "1" "T").snd.length ≠ 1 :=
  ⟨rfl, rfl, by decide⟩

/-- C1 amended: every successful domain mutation emits exactly one
envelope whose action matches the operation, each emitted envelope
carrying exactly the section-6 data fields; in addition document
delete, download, share and update emit one preceding `document_viewed`
(from the internal fetch), task completion emits one preceding
`task_updated` (from the internal update), document update also emits
`document_status_changed` when a nonempty status actually changes, and
an upload whose file name or merged tags indicate a proposal emits one
following `proposal_uploaded`. -/
theorem C1_amended_event_actions :
    (∀ (up : DocumentService.DocumentUpload) (fileId now : String) (year : Nat),
      ((DocumentService.strContains (DocumentService.strToLower up.file.name) "proposal" ||
          (DocumentService.setDedup (up.tags.getD [] ++
            DocumentService.generateAutoTags up.file year)).contains "proposal") = false →
        (DocumentService.uploadDocument up fileId now year).snd.map Envelope.action =
          ["document_uploaded"]) ∧
      ((DocumentService.strContains (DocumentService.strToLower up.file.name) "proposal" ||
          (DocumentService.setDedup (up.tags.getD [] ++
            DocumentService.generateAutoTags up.file year)).contains "proposal") = true →
        (DocumentService.uploadDocument up fileId now year).snd.map Envelope.action =
          ["document_uploaded", "proposal_uploaded"]) ∧
      (DocumentService.uploadDocument up fileId now year).snd.all
        (fun e => shapeMatches e.action e.data) = true) ∧
    (∀ (id now : String) (d : DocumentMetadata),
      (DocumentService.getDocument id now).fst = some d →
      (DocumentService.deleteDocument id now).fst = Except.ok () ∧
      (DocumentService.deleteDocument id now).snd.map Envelope.action =
        ["document_viewed", "document_deleted"] ∧
      (DocumentService.deleteDocument id now).snd.all
        (fun e => shapeMatches e.action e.data) = true) ∧
    (∀ (id now : String) (d : DocumentMetadata),
      (DocumentService.getDocument id now).fst = some d →
      (DocumentService.downloadDocument id now).snd.map Envelope.action =
        ["document_viewed", "document_downloaded"] ∧
      (DocumentService.downloadDocument id now).snd.all
        (fun e => shapeMatches e.action e.data) = true) ∧
    (∀ (id now : String) (emails : List String) (d : DocumentMetadata),
      (DocumentService.getDocument id now).fst = some d →
      (DocumentService.shareDocument id emails now).fst = Except.ok () ∧
      (DocumentService.shareDocument id emails now).snd.map Envelope.action =
        ["document_viewed", "document_shared"] ∧
      (DocumentService.shareDocument id emails now).snd.all
        (fun e => shapeMatches e.action e.data) = true) ∧
    (∀ (id now : String) (u : DocumentService.DocUpdates) (d : DocumentMetadata),
      (DocumentService.getDocument id now).fst = some d →
      (DocumentService.updateDocument id u now).snd.map Envelope.action =
        "document_viewed" ::
          ((match u.status with
            | some ns =>
              if d.status ≠ "" ∧ ns ≠ "" ∧ d.status ≠ ns
              then ["document_status_changed"] else []
            | none => []) ++
           (if u.presentKeys.length > 0 then ["document_edited"] else [])) ∧
      (DocumentService.updateDocument id u now).snd.all
        (fun e => shapeMatches e.action e.data) = true) ∧
    (∀ (tasks : List TaskData) (c : TaskService.CreateTaskData) (nowMs : Nat) (now : String),
      (TaskService.createTask tasks c nowMs now).snd.snd.map Envelope.action =
        ["task_created"] ∧
      (TaskService.createTask tasks c nowMs now).snd.snd.all
        (fun e => shapeMatches e.action e.data) = true) ∧
    (∀ (tasks : List TaskData) (id : String) (u : TaskService.TaskUpdates)
       (now : String) (r : TaskData × List TaskData),
      (TaskService.updateTask tasks id u now).fst = Except.ok r →
      (TaskService.updateTask tasks id u now).snd.map Envelope.action =
        ["task_updated"] ∧
      (TaskService.updateTask tasks id u now).snd.all
        (fun e => shapeMatches e.action e.data) = true) ∧
    (∀ (tasks : List TaskData) (id : String) (hrs : Option Nat)
       (now : String) (r : TaskData × List TaskData),
      (TaskService.completeTask tasks id hrs now).fst = Except.ok r →
      (TaskService.completeTask tasks id hrs now).snd.map Envelope.action =
        ["task_updated", "task_completed"] ∧
      (TaskService.completeTask tasks id hrs now).snd.all
        (fun e => shapeMatches e.action e.data) = true) ∧
    (∀ (tasks : List TaskData) (id now : String) (r : List TaskData),
      (TaskService.deleteTask tasks id now).fst = Except.ok r →
      (TaskService.deleteTask tasks id now).snd.map Envelope.action =
        ["task_deleted"] ∧
      (TaskService.deleteTask tasks id now).snd.all
        (fun e => shapeMatches e.action e.data) = true) := by
  refine ⟨?_, ?_, ?_, ?_, ?_, ?_, ?_, ?_, ?_⟩
  · intro up fileId now year
    refine ⟨fun hc => ?_, fun hc => ?_, ?_⟩
    · simp only [DocumentService.uploadDocument]
      rw [if_neg (by rw [hc]; exact Bool.false_ne_true)]
      rfl
    · simp only [DocumentService.uploadDocument]
      rw [if_pos hc]
      rfl
    · cases hc : (DocumentService.strContains (DocumentService.strToLower up.file.name)
          "proposal" || (DocumentService.setDedup (up.tags.getD [] ++
            DocumentService.generateAutoTags up.file year)).contains "proposal")
      · simp only [DocumentService.uploadDocument]
        rw [if_neg (by rw [hc]; exact Bool.false_ne_true)]
        rfl
      · simp only [DocumentService.uploadDocument]
        rw [if_pos hc]
        rfl
  · intro id now d h
    rcases hf : (DocumentService.getDocuments none).find? (fun x => x.id = id) with _ | d2
    · exact absurd h (by simp [DocumentService.getDocument, hf])
    · refine ⟨?_, ?_, ?_⟩ <;>
        simp only [DocumentService.deleteDocument, DocumentService.getDocument, hf] <;> rfl
  · intro id now d h
    rcases hf : (DocumentService.getDocuments none).find? (fun x => x.id = id) with _ | d2
    · exact absurd h (by simp [DocumentService.getDocument, hf])
    · refine ⟨?_, ?_⟩ <;>
        simp only [DocumentService.downloadDocument, DocumentService.getDocument, hf] <;> rfl
  · intro id now emails d h
    rcases hf : (DocumentService.getDocuments none).find? (fun x => x.id = id) with _ | d2
    · exact absurd h (by simp [DocumentService.getDocument, hf])
    · refine ⟨?_, ?_, ?_⟩ <;>
        simp only [DocumentService.shareDocument, DocumentService.getDocument, hf] <;> rfl
  · intro id now u d h
    rcases hf : (DocumentService.getDocuments none).find? (fun x => x.id = id) with _ | d2
    · exact absurd h (by simp [DocumentService.getDocument, hf])
    · have hd : d2 = d := by
        simp only [DocumentService.getDocument, hf, Option.some.injEq] at h
        exact h
      subst hd
      constructor
      · simp only [DocumentService.updateDocument, DocumentService.getDocument, hf]
        rcases hs : u.status with _ | ns <;> simp only [hs] <;> split_ifs <;> rfl
      · simp only [DocumentService.updateDocument, DocumentService.getDocument, hf]
        rcases hs : u.status with _ | ns <;> simp only [hs] <;> split_ifs <;> rfl
  · intro tasks c nowMs now
    exact ⟨rfl, rfl⟩
  · intro tasks id u now r h
    rcases hr : TaskService.replaceFirst tasks id
        (fun old => TaskService.applyTaskUpdates old u now) with _ | pr
    · exact absurd h (by simp [TaskService.updateTask, hr])
    · refine ⟨?_, ?_⟩ <;> simp only [TaskService.updateTask, hr] <;> rfl
  · intro tasks id hrs now r h
    rcases hr : TaskService.replaceFirst tasks id
        (fun old => TaskService.applyTaskUpdates old
          { status := some "completed", actualHours := some hrs } now) with _ | pr
    · exact absurd h
        (by simp [TaskService.completeTask, TaskService.updateTask, hr])
    · obtain ⟨ut, ts2⟩ := pr
      refine ⟨?_, ?_⟩ <;>
        simp only [TaskService.completeTask, TaskService.updateTask, hr] <;> rfl
  · intro tasks id now r h
    rcases hr : TaskService.removeFirst tasks id with _ | pr
    · exact absurd h (by simp [TaskService.deleteTask, hr])
    · refine ⟨?_, ?_⟩ <;> simp only [TaskService.deleteTask, hr] <;> rfl

/-- C1 witness: the amended characterization instantiated on stored
document id `"1"` and stored task id `"2"`. -/
theorem C1_amended_event_actions_witness :
    (DocumentService.deleteDocument "1" "T").snd.map Envelope.action =
      ["document_viewed", "document_deleted"] ∧
    (DocumentService.downloadDocument "1" "T").snd.map Envelope.action =
      ["document_viewed", "document_downloaded"] ∧
    (DocumentService.shareDocument "1" ["a@b.c"] "T").snd.map Envelope.action =
      ["document_viewed", "document_shared"] ∧
    (DocumentService.updateDocument "1" { status := some "signed" } "T").snd.map
      Envelope.action =
      ["document_viewed", "document_status_changed", "document_edited"] ∧
    (DocumentService.uploadDocument ndaUpload "f1" "T" 2024).snd.map Envelope.action =
      ["document_uploaded"] ∧
    (TaskService.updateTask TaskService.initialMockTasks "1"
        { priority := some "low" } "T").snd.map Envelope.action = ["task_updated"] ∧
    (TaskService.completeTask TaskService.initialMockTasks "2" (some 3) "T").snd.map
      Envelope.action = ["task_updated", "task_completed"] ∧
    (TaskService.deleteTask TaskService.initialMockTasks "1" "T").snd.map
      Envelope.action = ["task_deleted"] := by
  refine ⟨(C1_amended_event_actions.2.1 "1" "T" _ rfl).2.1,
    (C1_amended_event_actions.2.2.1 "1" "T" _ rfl).1,
    (C1_amended_event_actions.2.2.2.1 "1" "T" ["a@b.c"] _ rfl).2.1,
    ?_,
    (C1_amended_event_actions.1 ndaUpload "f1" "T" 2024).1 (by decide),
    (C1_amended_event_actions.2.2.2.2.2.2.1 TaskService.initialMockTasks "1"
      { priority := some "low" } "T" _ rfl).1,
    (C1_amended_event_actions.2.2.2.2.2.2.2.1 TaskService.initialMockTasks "2"
      (some 3) "T" _ rfl).1,
    (C1_amended_event_actions.2.2.2.2.2.2.2.2 TaskService.initialMockTasks "1" "T"
      _ rfl).1⟩
  have h := (C1_amended_event_actions.2.2.2.2.1 "1" "T" { status := some "signed" }
    _ rfl).1
  simpa using h
